import Mathlib

/-!
Shallow embedding of the StarBridge remote-care backend (src/main.py,
src/models.py, src/schemas.py) and proofs about its alert rule engine,
child-id normalization, textlog handler, alert acknowledgement and the
single-slot video frame cache.

Modelling conventions:
* Python floats carrying sensor values are modelled as `ℚ` (the rules only
  compare against exact decimal constants, all representable).
* Python strings that are trimmed or searched (text content, child ids) are
  modelled as `List Char`; `str.strip` becomes `pyStrip`, the Python
  `w in text` substring test becomes `str_contains`.
* `None` becomes `Option.none`; SQLAlchemy sessions become an explicit
  `DB` record threaded through the handlers; `db.add`+`commit` appends.
* Alert ids handed out by the database are modelled by an explicit counter.
-/

namespace StarBridge

/-- Python `w in text` on strings: `w` occurs as a contiguous substring. -/
def str_contains (text : List Char) (w : List Char) : Bool :=
  match text with
  | [] => w.isEmpty
  | _ :: rest => w.isPrefixOf text || str_contains rest w

/-- Python `str.strip()`: drop whitespace from both ends. -/
def pyStrip (s : List Char) : List Char :=
  ((s.dropWhile Char.isWhitespace).reverse.dropWhile Char.isWhitespace).reverse

/-- main.py line 27: `DEFAULT_CHILD_ID = "default"`. -/
def DEFAULT_CHILD_ID : List Char := "default".toList

/-- main.py `normalize_child_id`: `None` and blank-after-strip ids collapse
to `DEFAULT_CHILD_ID` (Python `cid or DEFAULT_CHILD_ID`: empty is falsy). -/
def normalize_child_id (child_id : Option (List Char)) : List Char :=
  match child_id with
  | none => DEFAULT_CHILD_ID
  | some c =>
    let cid := pyStrip c
    if cid = [] then DEFAULT_CHILD_ID else cid

/-- models.py `Alert` (sans id/timestamp, which the DB assigns; see
`StoredAlert`). -/
structure Alert where
  child_id : List Char
  level : String
  title : String
  message : String
  source : String
  acknowledged : Bool := false
deriving Repr, DecidableEq

/-- models.py `Environment` row (id/timestamp modelled by list position). -/
structure Environment where
  child_id : List Char
  temperature : Option ℚ
  humidity : Option ℚ
  light_lux : Option ℚ
  noise_db : Option ℚ
deriving Repr, DecidableEq

/-- models.py `TextLog` row. -/
structure TextLog where
  child_id : List Char
  content : List Char
  sentiment : Option ℚ
deriving Repr, DecidableEq

/-- models.py `HealthStatus` row. -/
structure HealthStatus where
  child_id : List Char
  heart_rate : Option ℤ
  spo2 : Option ℚ
deriving Repr, DecidableEq

/-- main.py `create_alert`: builds the Alert row that is added and committed
(the caller sequences the inserts; evaluation order is list order). -/
def create_alert (child_id : List Char) (level : String) (title : String)
    (message : String) (source : String) : Alert :=
  { child_id := child_id, level := level, title := title, message := message,
    source := source, acknowledged := false }

/-- Temperature block of main.py `analyze_environment` (lines 316-326). -/
def temperature_alerts (env : Environment) : List Alert :=
  match env.temperature with
  | none => []
  | some t =>
    if t < 16 ∨ t > 29 then
      [create_alert env.child_id (if t < 14 ∨ t > 31 then "critical" else "warn")
        "环境温度异常" ("当前温度 " ++ toString t ++ "℃，请注意调整。") "environment"]
    else []

/-- Humidity block of `analyze_environment` (lines 328-337). -/
def humidity_alerts (env : Environment) : List Alert :=
  match env.humidity with
  | none => []
  | some h =>
    if h < 30 ∨ h > 75 then
      [create_alert env.child_id "warn" "湿度不适"
        ("湿度 " ++ toString h ++ "%，请加湿或除湿。") "environment"]
    else []

/-- Light block of `analyze_environment` (lines 339-348). -/
def light_alerts (env : Environment) : List Alert :=
  match env.light_lux with
  | none => []
  | some lx =>
    if lx < 50 then
      [create_alert env.child_id "info" "光照偏暗" "光照不足，请注意用眼。" "environment"]
    else []

/-- Noise block of `analyze_environment` (lines 350-360). -/
def noise_alerts (env : Environment) : List Alert :=
  match env.noise_db with
  | none => []
  | some noise =>
    if noise > 65 then
      [create_alert env.child_id (if noise > 80 then "critical" else "warn")
        "环境噪音偏大" ("当前噪声约 " ++ toString noise ++ " dB，建议降低噪音或更换环境。")
        "environment"]
    else []

/-- main.py `analyze_environment`: the four independent field checks run in
source order, each committing its alert. -/
def analyze_environment (env : Environment) : List Alert :=
  temperature_alerts env ++ humidity_alerts env ++ light_alerts env ++ noise_alerts env

/-- The temperature alerts among an alert list, identified by their title. -/
def tempAlertsOf (alerts : List Alert) : List Alert :=
  alerts.filter fun a => a.title == "环境温度异常"

lemma tempAlertsOf_humidity (env : Environment) :
    tempAlertsOf (humidity_alerts env) = [] := by
  unfold tempAlertsOf humidity_alerts
  cases env.humidity with
  | none => rfl
  | some h =>
    simp only []
    split
    · simp [create_alert]
    · rfl

lemma tempAlertsOf_light (env : Environment) :
    tempAlertsOf (light_alerts env) = [] := by
  unfold tempAlertsOf light_alerts
  cases env.light_lux with
  | none => rfl
  | some lx =>
    simp only []
    split
    · simp [create_alert]
    · rfl

lemma tempAlertsOf_noise (env : Environment) :
    tempAlertsOf (noise_alerts env) = [] := by
  unfold tempAlertsOf noise_alerts
  cases env.noise_db with
  | none => rfl
  | some n =>
    simp only []
    split
    · simp [create_alert]
    · rfl

lemma tempAlertsOf_temperature (env : Environment) :
    tempAlertsOf (temperature_alerts env) = temperature_alerts env := by
  unfold tempAlertsOf temperature_alerts
  cases env.temperature with
  | none => rfl
  | some t =>
    simp only []
    split
    · simp [create_alert]
    · rfl

lemma tempAlertsOf_analyze (env : Environment) :
    tempAlertsOf (analyze_environment env) = temperature_alerts env := by
  unfold analyze_environment
  unfold tempAlertsOf at *
  simp only [List.filter_append]
  have h1 := tempAlertsOf_humidity env
  have h2 := tempAlertsOf_light env
  have h3 := tempAlertsOf_noise env
  have h4 := tempAlertsOf_temperature env
  unfold tempAlertsOf at h1 h2 h3 h4
  rw [h1, h2, h3, h4]
  simp

/-- C1: for an environment Reading whose temperature is `some t`, the
temperature alert is `critical` iff t<14 ∨ t>31, `warn` iff
(14≤t<16 ∨ 29<t≤31), and absent iff 16≤t≤29 (boundaries 16, 29 included
in the quiet range). -/
theorem analyze_environment_temperature_severity (env : Environment) (t : ℚ)
    (ht : env.temperature = some t) :
    ((∃ a ∈ tempAlertsOf (analyze_environment env), a.level = "critical") ↔
        (t < 14 ∨ t > 31)) ∧
    ((∃ a ∈ tempAlertsOf (analyze_environment env), a.level = "warn") ↔
        ((14 ≤ t ∧ t < 16) ∨ (29 < t ∧ t ≤ 31))) ∧
    (tempAlertsOf (analyze_environment env) = [] ↔ (16 ≤ t ∧ t ≤ 29)) := by
  rw [tempAlertsOf_analyze]
  unfold temperature_alerts
  rw [ht]
  simp only []
  by_cases hout : t < 16 ∨ t > 29
  · rw [if_pos hout]
    by_cases hcrit : t < 14 ∨ t > 31
    · rw [if_pos hcrit]
      refine ⟨?_, ?_, ?_⟩
      · simp [create_alert, hcrit]
      · simp only [List.mem_singleton, create_alert]
        constructor
        · rintro ⟨a, ha, hl⟩
          subst ha
          simp at hl
        · rintro (⟨h1, h2⟩ | ⟨h1, h2⟩) <;> rcases hcrit with h3 | h3 <;> linarith
      · constructor
        · intro h
          simp at h
        · rintro ⟨h1, h2⟩
          rcases hcrit with h3 | h3 <;> linarith
    · rw [if_neg hcrit]
      push_neg at hcrit
      refine ⟨?_, ?_, ?_⟩
      · simp only [List.mem_singleton, create_alert]
        constructor
        · rintro ⟨a, ha, hl⟩
          subst ha
          simp at hl
        · rintro (h | h) <;> [exact absurd h (by linarith); exact absurd h (by linarith)]
      · simp only [List.mem_singleton, create_alert]
        constructor
        · intro _
          rcases hout with h | h
          · exact Or.inl ⟨hcrit.1, h⟩
          · exact Or.inr ⟨h, hcrit.2⟩
        · intro _
          exact ⟨_, rfl, rfl⟩
      · constructor
        · intro h
          simp at h
        · rintro ⟨h1, h2⟩
          rcases hout with h | h <;> linarith
  · rw [if_neg hout]
    push_neg at hout
    refine ⟨?_, ?_, ?_⟩
    · simp
      exact ⟨by linarith [hout.1], by linarith [hout.2]⟩
    · simp
      constructor <;> (intro h; linarith [hout.1, hout.2])
    · simp
      exact ⟨hout.1, hout.2⟩

/-- Witness for C1 at t = 32 (critical region). -/
theorem analyze_environment_temperature_severity_witness :
    (∃ a ∈ tempAlertsOf (analyze_environment
        ⟨"default".toList, some 32, none, none, none⟩), a.level = "critical") ∧
    (tempAlertsOf (analyze_environment
        ⟨"default".toList, some 16, none, none, none⟩) = []) := by
  refine ⟨?_, ?_⟩
  · exact (analyze_environment_temperature_severity
      ⟨"default".toList, some 32, none, none, none⟩ 32 rfl).1.mpr (by norm_num)
  · exact (analyze_environment_temperature_severity
      ⟨"default".toList, some 16, none, none, none⟩ 16 rfl).2.2.mpr (by norm_num)

/-- Heart-rate block of main.py `analyze_health` (lines 388-398). -/
def heart_rate_alerts (h : HealthStatus) : List Alert :=
  match h.heart_rate with
  | none => []
  | some hr =>
    if hr < 55 ∨ hr > 130 then
      [create_alert h.child_id (if hr < 45 ∨ hr > 150 then "critical" else "warn")
        "心率异常" ("当前心率约 " ++ toString hr ++ " 次/分，请留意或咨询医生。") "health"]
    else []

/-- SpO2 block of main.py `analyze_health` (lines 400-410). -/
def spo2_alerts (h : HealthStatus) : List Alert :=
  match h.spo2 with
  | none => []
  | some s =>
    if s < 94 then
      [create_alert h.child_id (if s < 90 then "critical" else "warn")
        "血氧偏低" ("当前血氧约 " ++ toString s ++ "%，建议及时关注。") "health"]
    else []

/-- main.py `analyze_health`: heart-rate check then spO2 check. -/
def analyze_health (h : HealthStatus) : List Alert :=
  heart_rate_alerts h ++ spo2_alerts h

/-- The low-blood-oxygen alerts among an alert list, identified by title. -/
def spo2AlertsOf (alerts : List Alert) : List Alert :=
  alerts.filter fun a => a.title == "血氧偏低"

lemma spo2AlertsOf_heart_rate (h : HealthStatus) :
    spo2AlertsOf (heart_rate_alerts h) = [] := by
  unfold spo2AlertsOf heart_rate_alerts
  cases h.heart_rate with
  | none => rfl
  | some hr =>
    simp only []
    split
    · simp [create_alert]
    · rfl

lemma spo2AlertsOf_spo2 (h : HealthStatus) :
    spo2AlertsOf (spo2_alerts h) = spo2_alerts h := by
  unfold spo2AlertsOf spo2_alerts
  cases h.spo2 with
  | none => rfl
  | some s =>
    simp only []
    split
    · simp [create_alert]
    · rfl

lemma spo2AlertsOf_analyze (h : HealthStatus) :
    spo2AlertsOf (analyze_health h) = spo2_alerts h := by
  unfold analyze_health
  unfold spo2AlertsOf
  simp only [List.filter_append]
  have h1 := spo2AlertsOf_heart_rate h
  have h2 := spo2AlertsOf_spo2 h
  unfold spo2AlertsOf at h1 h2
  rw [h1, h2]
  simp

/-- C3: for a health Reading whose spO2 is `some s`, the low-blood-oxygen
alert is `critical` iff s<90, `warn` iff 90≤s<94, and absent iff s≥94. -/
theorem analyze_health_spo2_severity (h : HealthStatus) (s : ℚ)
    (hs : h.spo2 = some s) :
    ((∃ a ∈ spo2AlertsOf (analyze_health h), a.level = "critical") ↔ s < 90) ∧
    ((∃ a ∈ spo2AlertsOf (analyze_health h), a.level = "warn") ↔
        (90 ≤ s ∧ s < 94)) ∧
    (spo2AlertsOf (analyze_health h) = [] ↔ 94 ≤ s) := by
  rw [spo2AlertsOf_analyze]
  unfold spo2_alerts
  rw [hs]
  simp only []
  by_cases hlow : s < 94
  · rw [if_pos hlow]
    by_cases hcrit : s < 90
    · rw [if_pos hcrit]
      refine ⟨?_, ?_, ?_⟩
      · simp [create_alert, hcrit]
      · simp only [List.mem_singleton, create_alert]
        constructor
        · rintro ⟨a, ha, hl⟩
          subst ha
          simp at hl
        · rintro ⟨h1, _⟩
          linarith
      · constructor
        · intro hc
          simp at hc
        · intro h94
          linarith
    · rw [if_neg hcrit]
      push_neg at hcrit
      refine ⟨?_, ?_, ?_⟩
      · simp only [List.mem_singleton, create_alert]
        constructor
        · rintro ⟨a, ha, hl⟩
          subst ha
          simp at hl
        · intro h90
          linarith
      · simp only [List.mem_singleton, create_alert]
        constructor
        · intro _
          exact ⟨hcrit, hlow⟩
        · intro _
          exact ⟨_, rfl, rfl⟩
      · constructor
        · intro hc
          simp at hc
        · intro h94
          linarith
  · rw [if_neg hlow]
    push_neg at hlow
    refine ⟨?_, ?_, ?_⟩
    · simp
      linarith
    · simp
      intro h90
      linarith
    · simp
      exact hlow

/-- Witness for C3 at s = 89 (critical region) and s = 94 (quiet region). -/
theorem analyze_health_spo2_severity_witness :
    (∃ a ∈ spo2AlertsOf (analyze_health ⟨"default".toList, none, some 89⟩),
        a.level = "critical") ∧
    (spo2AlertsOf (analyze_health ⟨"default".toList, none, some 94⟩) = []) := by
  refine ⟨?_, ?_⟩
  · exact (analyze_health_spo2_severity ⟨"default".toList, none, some 89⟩ 89
      rfl).1.mpr (by norm_num)
  · exact (analyze_health_spo2_severity ⟨"default".toList, none, some 94⟩ 94
      rfl).2.2.mpr (by norm_num)

/-- main.py `rule_based_sentiment` negative lexicon (line 363). -/
def neg : List (List Char) :=
  ["难过".toList, "生气".toList, "害怕".toList, "烦".toList, "讨厌".toList, "哭".toList]

/-- main.py `rule_based_sentiment` positive lexicon (line 364). -/
def pos : List (List Char) :=
  ["开心".toList, "喜欢".toList, "高兴".toList, "满意".toList, "放松".toList]

/-- main.py `rule_based_sentiment`: −0.6 if any negative keyword occurs,
+0.6 if any positive keyword occurs, clamped to [−1, 1]. -/
def rule_based_sentiment (text : List Char) : ℚ :=
  let score : ℚ := 0
  let score := if neg.any (fun w => str_contains text w) then score - 0.6 else score
  let score := if pos.any (fun w => str_contains text w) then score + 0.6 else score
  max (-1) (min 1 score)

/-- Python `tl.sentiment or 0.0`: `None` (and the falsy 0.0) become 0.0. -/
def py_or_zero (s : Option ℚ) : ℚ :=
  match s with
  | none => 0
  | some v => if v = 0 then 0 else v

lemma py_or_zero_some (s : ℚ) : py_or_zero (some s) = s := by
  unfold py_or_zero
  by_cases h : s = 0
  · simp [h]
  · simp [h]

/-- main.py `analyze_textlog`: one `warn`/`text` alert when the score
is ≤ −0.5, nothing otherwise. -/
def analyze_textlog (tl : TextLog) : List Alert :=
  let s := py_or_zero tl.sentiment
  if s ≤ -0.5 then
    [create_alert tl.child_id "warn" "情绪低落"
      ("文本情绪得分 " ++ toString s ++ "，建议关注沟通。") "text"]
  else []

/-- A persisted alert: database-assigned primary key plus the row. -/
structure StoredAlert where
  id : Nat
  alert : Alert
deriving Repr, DecidableEq

/-- The relational store observed by the handlers.  Row order is insertion
order (`created_at` is server-assigned and monotone per insert). -/
structure DB where
  environments : List Environment := []
  textlogs : List TextLog := []
  health : List HealthStatus := []
  alerts : List StoredAlert := []
  next_alert_id : Nat := 0
deriving Repr, DecidableEq

/-- Commit a list of alert drafts in order, assigning fresh primary keys
(the engine calls `create_alert` once per violated rule). -/
def commit_alerts (db : DB) (drafts : List Alert) : DB :=
  drafts.foldl
    (fun d a =>
      { d with alerts := d.alerts ++ [⟨d.next_alert_id, a⟩],
               next_alert_id := d.next_alert_id + 1 })
    db

lemma commit_alerts_textlogs (drafts : List Alert) (db : DB) :
    (commit_alerts db drafts).textlogs = db.textlogs := by
  induction drafts generalizing db with
  | nil => rfl
  | cons a rest ih => exact ih _

lemma commit_alerts_environments (drafts : List Alert) (db : DB) :
    (commit_alerts db drafts).environments = db.environments := by
  induction drafts generalizing db with
  | nil => rfl
  | cons a rest ih => exact ih _

/-- schemas.py `TextLogIn`: all fields optional. -/
structure TextLogIn where
  child_id : Option (List Char) := none
  content : Option (List Char) := none
  text : Option (List Char) := none
  sentiment : Option ℚ := none
deriving Repr, DecidableEq

/-- The JSON object returned by main.py `create_textlog` (only the fields a
claim inspects are modelled; absent JSON keys are `none`). -/
structure TextLogResponse where
  ok : Bool
  msg : Option String := none
  id : Option Nat := none
  content : Option (List Char) := none
  sentiment : Option ℚ := none
  child_id : Option (List Char) := none
deriving Repr, DecidableEq

/-- main.py `create_textlog` (the active, line-154 version): strip the
content, reject blank text before touching the store, default the child id,
fall back to `rule_based_sentiment` when no score was supplied, insert the
row, then run `analyze_textlog` on it. -/
def create_textlog (item : TextLogIn) (db : DB) : TextLogResponse × DB :=
  let text := pyStrip (item.content.getD [])
  if text = [] then
    ({ ok := false, msg := some "empty text" }, db)
  else
    let child_id := normalize_child_id item.child_id
    let score : ℚ :=
      match item.sentiment with
      | some s => s
      | none => rule_based_sentiment text
    let obj : TextLog := { child_id := child_id, content := text, sentiment := some score }
    let db1 : DB := { db with textlogs := db.textlogs ++ [obj] }
    let db2 := commit_alerts db1 (analyze_textlog obj)
    ({ ok := true, id := some db.textlogs.length, content := some obj.content,
       sentiment := obj.sentiment, child_id := some obj.child_id }, db2)

lemma rule_based_sentiment_eq (text : List Char) :
    rule_based_sentiment text =
      max (-1) (min 1
        ((if neg.any (fun w => str_contains text w) then -(0.6 : ℚ) else 0) +
         (if pos.any (fun w => str_contains text w) then (0.6 : ℚ) else 0))) := by
  unfold rule_based_sentiment
  by_cases hn : neg.any (fun w => str_contains text w) <;>
    by_cases hp : pos.any (fun w => str_contains text w)
  · simp only [hn, hp, if_true]
    norm_num
  · simp only [hn, hp, if_true, if_false]
    norm_num
  · simp [hn, hp]
  · simp [hn, hp]

lemma rule_based_sentiment_bounds (text : List Char) :
    -1 ≤ rule_based_sentiment text ∧ rule_based_sentiment text ≤ 1 := by
  unfold rule_based_sentiment
  refine ⟨le_max_left _ _, max_le (by norm_num) (min_le_left _ _)⟩

/-- C4: a text Reading created without an explicit sentiment score stores
the lexicon score: −0.6 when a negative keyword occurs plus +0.6 when a
positive keyword occurs, clamped to [−1, 1]; the stored score depends on
the (stripped) text alone. -/
theorem create_textlog_sentiment_fallback (item : TextLogIn) (db : DB)
    (c : List Char) (hc : item.content = some c) (hs : item.sentiment = none)
    (hne : pyStrip c ≠ []) :
    ∃ tl : TextLog,
      (create_textlog item db).2.textlogs = db.textlogs ++ [tl] ∧
      tl.sentiment = some (rule_based_sentiment (pyStrip c)) ∧
      rule_based_sentiment (pyStrip c) =
        max (-1) (min 1
          ((if neg.any (fun w => str_contains (pyStrip c) w) then -(0.6 : ℚ) else 0) +
           (if pos.any (fun w => str_contains (pyStrip c) w) then (0.6 : ℚ) else 0))) ∧
      -1 ≤ rule_based_sentiment (pyStrip c) ∧
      rule_based_sentiment (pyStrip c) ≤ 1 := by
  unfold create_textlog
  rw [hc]
  simp only [Option.getD_some]
  rw [if_neg hne, hs]
  simp only []
  refine ⟨{ child_id := normalize_child_id item.child_id, content := pyStrip c,
            sentiment := some (rule_based_sentiment (pyStrip c)) }, ?_, rfl,
    rule_based_sentiment_eq _,
    (rule_based_sentiment_bounds _).1, (rule_based_sentiment_bounds _).2⟩
  rw [commit_alerts_textlogs]

/-- Witness for C4 on the spec's scenario text 我很难过. -/
theorem create_textlog_sentiment_fallback_witness :
    ∃ tl : StarBridge.TextLog,
      (create_textlog ⟨none, some "我很难过".toList, none, none⟩ {}).2.textlogs =
        ([] : List TextLog) ++ [tl] ∧
      tl.sentiment = some (rule_based_sentiment (pyStrip "我很难过".toList)) ∧
      rule_based_sentiment (pyStrip "我很难过".toList) =
        max (-1) (min 1
          ((if neg.any (fun w => str_contains (pyStrip "我很难过".toList) w)
              then -(0.6 : ℚ) else 0) +
           (if pos.any (fun w => str_contains (pyStrip "我很难过".toList) w)
              then (0.6 : ℚ) else 0))) ∧
      -1 ≤ rule_based_sentiment (pyStrip "我很难过".toList) ∧
      rule_based_sentiment (pyStrip "我很难过".toList) ≤ 1 :=
  create_textlog_sentiment_fallback ⟨none, some "我很难过".toList, none, none⟩ {}
    "我很难过".toList rfl rfl (by decide)

/-- C5: a text Reading whose final score s satisfies s ≤ −0.5 yields exactly
one alert, with level `warn`, source `text` and the low-mood title; a score
with s > −0.5 yields none. -/
theorem analyze_textlog_low_mood (tl : TextLog) (s : ℚ)
    (hs : tl.sentiment = some s) :
    (s ≤ -(0.5 : ℚ) →
      ∃ a, analyze_textlog tl = [a] ∧ a.level = "warn" ∧ a.source = "text" ∧
        a.title = "情绪低落") ∧
    (¬ s ≤ -(0.5 : ℚ) → analyze_textlog tl = []) := by
  unfold analyze_textlog
  rw [hs]
  simp only [py_or_zero_some]
  constructor
  · intro h
    rw [if_pos h]
    exact ⟨_, rfl, rfl, rfl, rfl⟩
  · intro h
    rw [if_neg h]

/-- Witness for C5: score −0.6 produces one warn/text alert, 0.6 none. -/
theorem analyze_textlog_low_mood_witness :
    (∃ a, analyze_textlog ⟨"default".toList, "我很难过".toList, some (-0.6)⟩ = [a] ∧
      a.level = "warn" ∧ a.source = "text" ∧ a.title = "情绪低落") ∧
    analyze_textlog ⟨"default".toList, "我很开心".toList, some 0.6⟩ = [] := by
  refine ⟨?_, ?_⟩
  · exact (analyze_textlog_low_mood
      ⟨"default".toList, "我很难过".toList, some (-0.6)⟩ (-0.6) rfl).1 (by norm_num)
  · exact (analyze_textlog_low_mood
      ⟨"default".toList, "我很开心".toList, some 0.6⟩ 0.6 rfl).2 (by norm_num)

/-- C10: a textlog POST whose content is missing or blank after trimming is
rejected with ok=false / "empty text" and leaves the store untouched. -/
theorem create_textlog_empty_text (item : TextLogIn) (db : DB)
    (h : pyStrip (item.content.getD []) = []) :
    create_textlog item db = ({ ok := false, msg := some "empty text" }, db) := by
  unfold create_textlog
  rw [if_pos h]

/-- Witness for C10 on whitespace-only content. -/
theorem create_textlog_empty_text_witness :
    create_textlog ⟨none, some "   ".toList, none, none⟩ {} =
      ({ ok := false, msg := some "empty text" }, ({} : DB)) :=
  create_textlog_empty_text ⟨none, some "   ".toList, none, none⟩ {} (by decide)

/-- Temperature rule fires (`t is not None and (t < 16 or t > 29)`). -/
def temp_violated (env : Environment) : Bool :=
  match env.temperature with
  | none => false
  | some t => decide (t < 16 ∨ t > 29)

/-- Humidity rule fires (`h < 30 or h > 75`). -/
def hum_violated (env : Environment) : Bool :=
  match env.humidity with
  | none => false
  | some h => decide (h < 30 ∨ h > 75)

/-- Light rule fires (`lx < 50`). -/
def light_violated (env : Environment) : Bool :=
  match env.light_lux with
  | none => false
  | some lx => decide (lx < 50)

/-- Noise rule fires (`noise > 65`). -/
def noise_violated (env : Environment) : Bool :=
  match env.noise_db with
  | none => false
  | some n => decide (n > 65)

lemma temperature_alerts_length (env : Environment) :
    (temperature_alerts env).length = if temp_violated env then 1 else 0 := by
  unfold temperature_alerts temp_violated
  cases env.temperature with
  | none => rfl
  | some t => by_cases h : t < 16 ∨ t > 29 <;> simp [h]

lemma humidity_alerts_length (env : Environment) :
    (humidity_alerts env).length = if hum_violated env then 1 else 0 := by
  unfold humidity_alerts hum_violated
  cases env.humidity with
  | none => rfl
  | some h => by_cases hh : h < 30 ∨ h > 75 <;> simp [hh]

lemma light_alerts_length (env : Environment) :
    (light_alerts env).length = if light_violated env then 1 else 0 := by
  unfold light_alerts light_violated
  cases env.light_lux with
  | none => rfl
  | some lx => by_cases h : lx < 50 <;> simp [h]

lemma noise_alerts_length (env : Environment) :
    (noise_alerts env).length = if noise_violated env then 1 else 0 := by
  unfold noise_alerts noise_violated
  cases env.noise_db with
  | none => rfl
  | some n => by_cases h : n > 65 <;> simp [h]

lemma temperature_alerts_source (env : Environment) :
    ∀ a ∈ temperature_alerts env, a.source = "environment" := by
  intro a ha
  unfold temperature_alerts at ha
  split at ha
  · simp at ha
  · split at ha
    · simp at ha; rw [ha]; rfl
    · simp at ha

lemma humidity_alerts_source (env : Environment) :
    ∀ a ∈ humidity_alerts env, a.source = "environment" := by
  intro a ha
  unfold humidity_alerts at ha
  split at ha
  · simp at ha
  · split at ha
    · simp at ha; rw [ha]; rfl
    · simp at ha

lemma light_alerts_source (env : Environment) :
    ∀ a ∈ light_alerts env, a.source = "environment" := by
  intro a ha
  unfold light_alerts at ha
  split at ha
  · simp at ha
  · split at ha
    · simp at ha; rw [ha]; rfl
    · simp at ha

lemma noise_alerts_source (env : Environment) :
    ∀ a ∈ noise_alerts env, a.source = "environment" := by
  intro a ha
  unfold noise_alerts at ha
  split at ha
  · simp at ha
  · split at ha
    · simp at ha; rw [ha]; rfl
    · simp at ha

lemma analyze_environment_sources (env : Environment) :
    ∀ a ∈ analyze_environment env, a.source = "environment" := by
  intro a ha
  unfold analyze_environment at ha
  simp only [List.mem_append] at ha
  rcases ha with ((ha | ha) | ha) | ha
  · exact temperature_alerts_source env a ha
  · exact humidity_alerts_source env a ha
  · exact light_alerts_source env a ha
  · exact noise_alerts_source env a ha

/-- C6: environment rules are evaluated independently per field: every alert
carries source `environment`, the number of alerts equals the number of
violated rules (null fields violate nothing), and a Reading whose only
non-null field is temperature = 32 yields exactly one critical alert. -/
theorem analyze_environment_per_field (env : Environment) :
    (∀ a ∈ analyze_environment env, a.source = "environment") ∧
    (analyze_environment env).length =
      (((if temp_violated env then 1 else 0) + (if hum_violated env then 1 else 0)) +
        (if light_violated env then 1 else 0)) + (if noise_violated env then 1 else 0) ∧
    (env.temperature = some 32 ∧ env.humidity = none ∧ env.light_lux = none ∧
        env.noise_db = none →
      ∃ a, analyze_environment env = [a] ∧ a.level = "critical" ∧
        a.source = "environment" ∧ a.title = "环境温度异常") := by
  refine ⟨analyze_environment_sources env, ?_, ?_⟩
  · unfold analyze_environment
    simp only [List.length_append]
    rw [temperature_alerts_length, humidity_alerts_length, light_alerts_length,
      noise_alerts_length]
  · rintro ⟨h1, h2, h3, h4⟩
    unfold analyze_environment temperature_alerts humidity_alerts light_alerts noise_alerts
    rw [h1, h2, h3, h4]
    norm_num
    exact ⟨rfl, rfl, rfl⟩

/-- Witness for C6 at the spec scenario temperature = 32. -/
theorem analyze_environment_per_field_witness :
    ∃ a, analyze_environment ⟨"default".toList, some 32, none, none, none⟩ = [a] ∧
      a.level = "critical" ∧ a.source = "environment" ∧ a.title = "环境温度异常" :=
  (analyze_environment_per_field
    ⟨"default".toList, some 32, none, none, none⟩).2.2 ⟨rfl, rfl, rfl, rfl⟩

/-- schemas.py `EnvironmentIn`: all fields optional. -/
structure EnvironmentIn where
  temperature : Option ℚ := none
  humidity : Option ℚ := none
  light_lux : Option ℚ := none
  noise_db : Option ℚ := none
  child_id : Option (List Char) := none
deriving Repr, DecidableEq

/-- main.py `create_environment`: normalize the child id, insert the row,
then run `analyze_environment` on it; returns the stored Reading. -/
def create_environment (item : EnvironmentIn) (db : DB) : Environment × DB :=
  let child_id := normalize_child_id item.child_id
  let obj : Environment :=
    { child_id := child_id, temperature := item.temperature,
      humidity := item.humidity, light_lux := item.light_lux,
      noise_db := item.noise_db }
  let db1 : DB := { db with environments := db.environments ++ [obj] }
  let db2 := commit_alerts db1 (analyze_environment obj)
  (obj, db2)

/-- main.py `list_environment`: rows whose child id equals the normalized
query id, newest first (`created_at` descending = reverse insertion order). -/
def list_environment (child_id : Option (List Char)) (db : DB) : List Environment :=
  (db.environments.filter fun e => e.child_id == normalize_child_id child_id).reverse

/-- C8: an absent or blank-after-trim child id normalizes to the fixed
default on the create path and the list path alike, so a Reading created
with no child id is exactly what a list request with no child id returns
(prepended, newest first). -/
theorem child_id_default_roundtrip (item : EnvironmentIn) (db : DB)
    (h : item.child_id = none ∨ ∃ s, item.child_id = some s ∧ pyStrip s = []) :
    normalize_child_id item.child_id = DEFAULT_CHILD_ID ∧
    (create_environment item db).1.child_id = DEFAULT_CHILD_ID ∧
    (create_environment item db).2.environments =
      db.environments ++ [(create_environment item db).1] ∧
    list_environment none (create_environment item db).2 =
      (create_environment item db).1 :: list_environment none db := by
  have hnorm : normalize_child_id item.child_id = DEFAULT_CHILD_ID := by
    rcases h with h | ⟨s, hs, hblank⟩
    · rw [h]; rfl
    · rw [hs]
      unfold normalize_child_id
      simp only []
      rw [if_pos hblank]
  have hobj : (create_environment item db).1.child_id = DEFAULT_CHILD_ID := hnorm
  have henv : (create_environment item db).2.environments =
      db.environments ++ [(create_environment item db).1] := by
    unfold create_environment
    simp only []
    rw [commit_alerts_environments]
  refine ⟨hnorm, hobj, henv, ?_⟩
  unfold list_environment
  rw [henv, List.filter_append]
  have hone : List.filter (fun e => e.child_id == normalize_child_id none)
      [(create_environment item db).1] = [(create_environment item db).1] := by
    simp only [List.filter, hobj]
    rfl
  rw [hone, List.reverse_append]
  rfl

/-- Witness for C8: an omitted child id on create and list meet at the
default identifier. -/
theorem child_id_default_roundtrip_witness :
    normalize_child_id ({} : EnvironmentIn).child_id = DEFAULT_CHILD_ID ∧
    (create_environment {} {}).1.child_id = DEFAULT_CHILD_ID ∧
    (create_environment {} {}).2.environments =
      ({} : DB).environments ++ [(create_environment {} {}).1] ∧
    list_environment none (create_environment {} ({} : DB)).2 =
      (create_environment {} ({} : DB)).1 :: list_environment none {} := by
  have := child_id_default_roundtrip {} {} (Or.inl rfl)
  exact this

/-- main.py `ack_alert` result JSON. -/
structure AckResult where
  ok : Bool
  msg : Option String := none
deriving Repr, DecidableEq

/-- main.py `ack_alert`: `db.get(Alert, aid)`; on miss return a structured
not-found result and change nothing, on hit set acknowledged and commit. -/
def ack_alert (aid : Nat) (db : DB) : AckResult × DB :=
  match db.alerts.find? (fun sa => sa.id == aid) with
  | none => ({ ok := false, msg := some "not found" }, db)
  | some _ =>
    ({ ok := true },
     { db with alerts := db.alerts.map fun sa =>
         if sa.id = aid then { sa with alert := { sa.alert with acknowledged := true } }
         else sa })

/-- C9: acknowledging a missing alert id returns ok=false / "not found" and
leaves all stored state unchanged; on an existing id it returns ok and the
alert with that id has acknowledged = true, with all other tables intact. -/
theorem ack_alert_not_found_safe (aid : Nat) (db : DB) :
    ((∀ sa ∈ db.alerts, sa.id ≠ aid) →
      (ack_alert aid db).1 = { ok := false, msg := some "not found" } ∧
      (ack_alert aid db).2 = db) ∧
    ((∃ sa ∈ db.alerts, sa.id = aid) →
      (ack_alert aid db).1 = { ok := true, msg := none } ∧
      (∀ sa ∈ (ack_alert aid db).2.alerts, sa.id = aid →
        sa.alert.acknowledged = true) ∧
      (ack_alert aid db).2.environments = db.environments ∧
      (ack_alert aid db).2.textlogs = db.textlogs) := by
  constructor
  · intro h
    have hf : db.alerts.find? (fun sa => sa.id == aid) = none := by
      rw [List.find?_eq_none]
      intro sa hsa
      simpa using h sa hsa
    unfold ack_alert
    rw [hf]
    exact ⟨rfl, rfl⟩
  · rintro ⟨sa, hsa, hid⟩
    have hf : (db.alerts.find? (fun sa => sa.id == aid)).isSome := by
      rw [List.find?_isSome]
      exact ⟨sa, hsa, by simpa using hid⟩
    unfold ack_alert
    cases hfind : db.alerts.find? (fun sa => sa.id == aid) with
    | none => rw [hfind] at hf; simp at hf
    | some x =>
      refine ⟨rfl, ?_, rfl, rfl⟩
      intro sa' hsa' hid'
      simp only [List.mem_map] at hsa'
      obtain ⟨y, hy, hfy⟩ := hsa'
      by_cases hyid : y.id = aid
      · rw [← hfy, if_pos hyid]
      · rw [← hfy, if_neg hyid] at hid'
        exact absurd hid' hyid

/-- Witness for C9: a store with the single alert id 0 — missing id 1 is
rejected with nothing changed, present id 0 is acknowledged. -/
theorem ack_alert_not_found_safe_witness :
    ((ack_alert 1 { alerts := [⟨0, create_alert "default".toList "warn" "t" "m" "other"⟩] }).1 =
        { ok := false, msg := some "not found" } ∧
      (ack_alert 1 { alerts := [⟨0, create_alert "default".toList "warn" "t" "m" "other"⟩] }).2 =
        { alerts := [⟨0, create_alert "default".toList "warn" "t" "m" "other"⟩] }) ∧
    ((ack_alert 0 { alerts := [⟨0, create_alert "default".toList "warn" "t" "m" "other"⟩] }).1 =
        { ok := true, msg := none } ∧
      (∀ sa ∈ (ack_alert 0
          { alerts := [⟨0, create_alert "default".toList "warn" "t" "m" "other"⟩] }).2.alerts,
        sa.id = 0 → sa.alert.acknowledged = true)) := by
  constructor
  · exact (ack_alert_not_found_safe 1
      { alerts := [⟨0, create_alert "default".toList "warn" "t" "m" "other"⟩] }).1
      (by intro sa hsa; simp at hsa; rw [hsa]; decide)
  · have := (ack_alert_not_found_safe 0
      { alerts := [⟨0, create_alert "default".toList "warn" "t" "m" "other"⟩] }).2
      ⟨⟨0, create_alert "default".toList "warn" "t" "m" "other"⟩, by simp, rfl⟩
    exact ⟨this.1, this.2.1⟩

/-- main.py lines 454-455: `with _latest_lock: _latest_frame = img` —
unconditional replacement of the single-slot cache. -/
def publish {Frame : Type} (img : Frame) (_latest_frame : Option Frame) :
    Option Frame :=
  some img

/-- main.py lines 478-479: `None if _latest_frame is None else
_latest_frame.copy()` — a value copy of the current frame, or none. -/
def snapshot {Frame : Type} (latest : Option Frame) : Option Frame :=
  match latest with
  | none => none
  | some f => some f

/-- C2: after publish(A) then publish(B) with no later publish, snapshot
returns a copy equal to B and never A (last writer wins), from any prior
cache state. -/
theorem frame_cache_last_writer_wins {Frame : Type} (A B : Frame)
    (c₀ : Option Frame) (hAB : A ≠ B) :
    snapshot (publish B (publish A c₀)) = some B ∧
    snapshot (publish B (publish A c₀)) ≠ some A := by
  refine ⟨rfl, ?_⟩
  intro h
  exact hAB (Option.some.inj h).symm

/-- Witness for C2 with two distinct frames over ℕ. -/
theorem frame_cache_last_writer_wins_witness :
    snapshot (publish 1 (publish 0 (none : Option ℕ))) = some 1 ∧
    snapshot (publish 1 (publish 0 (none : Option ℕ))) ≠ some 0 :=
  frame_cache_last_writer_wins 0 1 none (by decide)

/-- main.py line 420: `FRAME_SIZE = (360, 640)` (height, width). -/
def FRAME_SIZE : ℕ × ℕ := (360, 640)

/-- A raw decoded pixel buffer (rows of BGR pixels). -/
structure RawFrame where
  pixels : List (List (ℕ × ℕ × ℕ))
deriving Repr, DecidableEq

/-- Row count of a raw frame (`img.shape[0]`). -/
def RawFrame.height (f : RawFrame) : ℕ := f.pixels.length

/-- Column count of a raw frame (`img.shape[1]`). -/
def RawFrame.width (f : RawFrame) : ℕ := (f.pixels.headD []).length

/-- main.py `_blank_jpeg`'s `np.zeros((FRAME_SIZE[0], FRAME_SIZE[1], 3))`:
the solid-black frame of the canonical dimensions. -/
def blank_frame : RawFrame :=
  ⟨List.replicate FRAME_SIZE.1 (List.replicate FRAME_SIZE.2 (0, 0, 0))⟩

/-- main.py `_blank_jpeg`: encode the blank frame (cv2.imencode is external
and is passed in as `imencode`), empty bytes when encoding fails. -/
def blank_jpeg (imencode : RawFrame → Option (List ℕ)) : List ℕ :=
  match imencode blank_frame with
  | some buf => buf
  | none => []

/-- main.py `_encode_jpeg`: quality-70 encode, `None` on failure. -/
def encode_jpeg (imencode_q70 : RawFrame → Option (List ℕ)) (img : RawFrame) :
    Option (List ℕ) :=
  imencode_q70 img

/-- `b"--frame\r\n"`. -/
def boundary_bytes : List ℕ := "--frame\r\n".toList.map Char.toNat

/-- `b"Content-Type: image/jpeg\r\n\r\n"`. -/
def header_bytes : List ℕ :=
  "Content-Type: image/jpeg\r\n\r\n".toList.map Char.toNat

/-- `b"\r\n"`. -/
def crlf_bytes : List ℕ := "\r\n".toList.map Char.toNat

/-- One iteration of main.py `_frame_generator`: snapshot the cache, encode
the frame if there is one (else use the precomputed blank), fall back to
the blank when encoding fails, and emit boundary + header + bytes + CRLF. -/
def frame_generator_chunk (imencode imencode_q70 : RawFrame → Option (List ℕ))
    (latest : Option RawFrame) : List ℕ :=
  let blank := blank_jpeg imencode
  let frame := snapshot latest
  let jpg : List ℕ :=
    match frame with
    | none => blank
    | some f =>
      match encode_jpeg imencode_q70 f with
      | some j => j
      | none => blank
  boundary_bytes ++ header_bytes ++ jpg ++ crlf_bytes

/-- C7: before any publish the snapshot is the explicit empty marker and the
streamer emits the placeholder (encoded blank frame of the canonical
360×640 dimensions) instead of stalling; an encode failure on a real frame
falls back to the same placeholder. -/
theorem frame_generator_placeholder
    (imencode imencode_q70 : RawFrame → Option (List ℕ)) (f : RawFrame)
    (henc : imencode_q70 f = none) :
    blank_frame.height = 360 ∧ blank_frame.width = 640 ∧
    snapshot (none : Option RawFrame) = none ∧
    frame_generator_chunk imencode imencode_q70 none =
      boundary_bytes ++ header_bytes ++ blank_jpeg imencode ++ crlf_bytes ∧
    frame_generator_chunk imencode imencode_q70 (some f) =
      boundary_bytes ++ header_bytes ++ blank_jpeg imencode ++ crlf_bytes := by
  refine ⟨?_, ?_, rfl, rfl, ?_⟩
  · unfold RawFrame.height blank_frame FRAME_SIZE
    exact List.length_replicate _ _
  · unfold RawFrame.width blank_frame FRAME_SIZE
    rw [show ((360, 640) : ℕ × ℕ).1 = 359 + 1 from rfl, List.replicate_succ,
      List.headD_cons, List.length_replicate]
  · simp only [frame_generator_chunk, snapshot, encode_jpeg, henc]

/-- Witness for C7: a concrete always-failing quality-70 encoder. -/
theorem frame_generator_placeholder_witness :
    blank_frame.height = 360 ∧ blank_frame.width = 640 ∧
    snapshot (none : Option RawFrame) = none ∧
    frame_generator_chunk (fun _ => some [0]) (fun _ => none) none =
      boundary_bytes ++ header_bytes ++ blank_jpeg (fun _ => some [0]) ++ crlf_bytes ∧
    frame_generator_chunk (fun _ => some [0]) (fun _ => none) (some blank_frame) =
      boundary_bytes ++ header_bytes ++ blank_jpeg (fun _ => some [0]) ++ crlf_bytes :=
  frame_generator_placeholder (fun _ => some [0]) (fun _ => none) blank_frame rfl

end StarBridge
